import Mathlib

/-!
Verification of the WaterPool renderer (src/main.cpp) against its
natural-language specification.

The whole algorithmic content of the program lives in five GLSL shaders
embedded as string constants in src/main.cpp, plus the render loop of
`main`.  This file gives a shallow embedding of that content over the real
numbers: GLSL `vec3`/`vec4` become `Vec3`/`Vec4` records of reals, GLSL
`sqrt`, `sin`, `cos`, `pow` become `Real.sqrt`, `Real.sin`, `Real.cos` and
`(· ^ 5)`, texture samplers become abstract functions passed as arguments,
and the straight-line sequence of GL calls in the render loop becomes a
list of commands folded into draw/clear/swap events.
-/

namespace WaterPool

/-- GLSL `vec3`, componentwise over the reals. -/
structure Vec3 where
  x : ℝ
  y : ℝ
  z : ℝ

/-- GLSL `vec4`, componentwise over the reals. -/
structure Vec4 where
  x : ℝ
  y : ℝ
  z : ℝ
  w : ℝ

/-- GLSL componentwise vector addition. -/
def vadd (a b : Vec3) : Vec3 := ⟨a.x + b.x, a.y + b.y, a.z + b.z⟩

/-- GLSL componentwise vector subtraction. -/
def vsub (a b : Vec3) : Vec3 := ⟨a.x - b.x, a.y - b.y, a.z - b.z⟩

/-- GLSL componentwise vector multiplication (`vec3 * vec3`). -/
def vmul (a b : Vec3) : Vec3 := ⟨a.x * b.x, a.y * b.y, a.z * b.z⟩

/-- GLSL scalar-times-vector multiplication. -/
def smul (s : ℝ) (a : Vec3) : Vec3 := ⟨s * a.x, s * a.y, s * a.z⟩

/-- GLSL `dot` on `vec3`. -/
def dot (a b : Vec3) : ℝ := a.x * b.x + a.y * b.y + a.z * b.z

/-- GLSL `length` on `vec3`. -/
noncomputable def length (v : Vec3) : ℝ := Real.sqrt (dot v v)

/-- GLSL `normalize` on `vec3`: the vector divided by its length. -/
noncomputable def normalize (v : Vec3) : Vec3 :=
  ⟨v.x / length v, v.y / length v, v.z / length v⟩

/-!
Wave field (src/main.cpp, water_vertex_shader_source lines 168-181 and
caustic_vertex_shader_source lines 279-291).  The two shaders hold two
textually identical copies of `get_height`, `dhdx` and `dhdy`; both copies
are embedded, each from its own source.  The shader reads `in_position.x`
and `in_position.y` (the horizontal plane coordinates, the second of which
becomes the world `z`) and the uniform `time`; here they are the arguments
`x`, `y`, `t`.
-/

/-- Lines 168-172: `get_height` of the water vertex shader. -/
noncomputable def water_get_height (x y t : ℝ) : ℝ :=
  let base_height : ℝ := 5
  let add := 0.5 * Real.sin (x + t) + 0.2 * Real.cos (y + 3 * t) +
    0.1 * Real.sin (x + 2 * y + t)
  base_height + add

/-- Lines 174-176: `dhdx` of the water vertex shader. -/
noncomputable def water_dhdx (x y t : ℝ) : ℝ :=
  0.5 * Real.cos (x + t) + 0.1 * Real.cos (x + 2 * y + t)

/-- Lines 178-180: `dhdy` of the water vertex shader. -/
noncomputable def water_dhdy (x y t : ℝ) : ℝ :=
  -0.2 * Real.sin (y + 3 * t) + 0.2 * Real.cos (x + 2 * y + t)

/-- Lines 279-283: `get_height` of the caustic vertex shader. -/
noncomputable def caustic_get_height (x y t : ℝ) : ℝ :=
  let base_height : ℝ := 5
  let add := 0.5 * Real.sin (x + t) + 0.2 * Real.cos (y + 3 * t) +
    0.1 * Real.sin (x + 2 * y + t)
  base_height + add

/-- Lines 285-287: `dhdx` of the caustic vertex shader. -/
noncomputable def caustic_dhdx (x y t : ℝ) : ℝ :=
  0.5 * Real.cos (x + t) + 0.1 * Real.cos (x + 2 * y + t)

/-- Lines 289-291: `dhdy` of the caustic vertex shader. -/
noncomputable def caustic_dhdy (x y t : ℝ) : ℝ :=
  -0.2 * Real.sin (y + 3 * t) + 0.2 * Real.cos (x + 2 * y + t)

/-- Derivative of the shared height formula in its first argument. -/
lemma hasDerivAt_height_formula_x (x z t : ℝ) :
    HasDerivAt (fun u : ℝ => (5 : ℝ) + (0.5 * Real.sin (u + t) +
      0.2 * Real.cos (z + 3 * t) + 0.1 * Real.sin (u + 2 * z + t)))
      (0.5 * Real.cos (x + t) + 0.1 * Real.cos (x + 2 * z + t)) x := by
  have h1 : HasDerivAt (fun u : ℝ => u + t) 1 x := (hasDerivAt_id x).add_const t
  have h2 : HasDerivAt (fun u : ℝ => u + 2 * z + t) 1 x :=
    ((hasDerivAt_id x).add_const (2 * z)).add_const t
  have hs1 := h1.sin.const_mul (0.5 : ℝ)
  have hs2 := h2.sin.const_mul (0.1 : ℝ)
  have hc : HasDerivAt (fun _ : ℝ => (0.2 : ℝ) * Real.cos (z + 3 * t)) 0 x :=
    hasDerivAt_const x _
  have hsum := ((hs1.add hc).add hs2).const_add (5 : ℝ)
  convert hsum using 1
  ring

/-- Derivative of the shared height formula in its second argument. -/
lemma hasDerivAt_height_formula_z (x z t : ℝ) :
    HasDerivAt (fun v : ℝ => (5 : ℝ) + (0.5 * Real.sin (x + t) +
      0.2 * Real.cos (v + 3 * t) + 0.1 * Real.sin (x + 2 * v + t)))
      (-0.2 * Real.sin (z + 3 * t) + 0.2 * Real.cos (x + 2 * z + t)) z := by
  have h1 : HasDerivAt (fun v : ℝ => v + 3 * t) 1 z :=
    (hasDerivAt_id z).add_const (3 * t)
  have h2 : HasDerivAt (fun v : ℝ => x + 2 * v + t) (2 * 1) z :=
    (((hasDerivAt_id z).const_mul 2).const_add x).add_const t
  have hc1 := h1.cos.const_mul (0.2 : ℝ)
  have hs2 := h2.sin.const_mul (0.1 : ℝ)
  have hc0 : HasDerivAt (fun _ : ℝ => (0.5 : ℝ) * Real.sin (x + t)) 0 z :=
    hasDerivAt_const z _
  have hsum := ((hc0.add hc1).add hs2).const_add (5 : ℝ)
  convert hsum using 1
  ring

/-- C5: for all (x, z, t) the wave-field height is the stated sum of three
traveling sinusoids plus the base level, and the slope functions `dhdx` and
`dhdy` are its exact analytic partial derivatives in x and in z, in the
water vertex shader and in the caustic vertex shader alike. -/
theorem c5_wave_slopes_exact_derivatives : ∀ x z t : ℝ,
    water_get_height x z t = 5 + (0.5 * Real.sin (x + t) +
      0.2 * Real.cos (z + 3 * t) + 0.1 * Real.sin (x + 2 * z + t)) ∧
    HasDerivAt (fun u : ℝ => water_get_height u z t) (water_dhdx x z t) x ∧
    HasDerivAt (fun v : ℝ => water_get_height x v t) (water_dhdy x z t) z ∧
    HasDerivAt (fun u : ℝ => caustic_get_height u z t) (caustic_dhdx x z t) x ∧
    HasDerivAt (fun v : ℝ => caustic_get_height x v t) (caustic_dhdy x z t) z := by
  intro x z t
  refine ⟨rfl, ?_, ?_, ?_, ?_⟩
  · simpa [water_get_height, water_dhdx] using hasDerivAt_height_formula_x x z t
  · simpa [water_get_height, water_dhdy] using hasDerivAt_height_formula_z x z t
  · simpa [caustic_get_height, caustic_dhdx] using hasDerivAt_height_formula_x x z t
  · simpa [caustic_get_height, caustic_dhdy] using hasDerivAt_height_formula_z x z t

/-!
Refraction approximation (src/main.cpp, `get_refract` in
water_fragment_shader_source lines 234-245 and in
caustic_vertex_shader_source lines 293-305).  The two bodies are textually
identical; the caustic copy takes `normal` and `position` as parameters
while the water copy reads them as fragment inputs, so one parameterized
embedding serves both.  The local variables `cosine`, `sine`,
`refract_sine` and `refract_cosine` are lifted to named definitions so
theorems can speak about them.
-/

/-- Line 235: `float cosine = dot(normalize(normal), direction);`. -/
noncomputable def get_refract_cosine (direction normal : Vec3) : ℝ :=
  dot (normalize normal) direction

/-- Line 236: `float sine = sqrt(1 - cosine * cosine);`. -/
noncomputable def get_refract_sine (direction normal : Vec3) : ℝ :=
  Real.sqrt (1 - get_refract_cosine direction normal *
    get_refract_cosine direction normal)

/-- Line 237: `float refract_sine = n1 * sine / n2;`. -/
noncomputable def get_refract_refract_sine (direction normal : Vec3)
    (n1 n2 : ℝ) : ℝ :=
  n1 * get_refract_sine direction normal / n2

/-- Line 238: `float refract_cosine = sqrt(1 - refract_sine * refract_sine);`. -/
noncomputable def get_refract_refract_cosine (direction normal : Vec3)
    (n1 n2 : ℝ) : ℝ :=
  Real.sqrt (1 - get_refract_refract_sine direction normal n1 n2 *
    get_refract_refract_sine direction normal n1 n2)

/-- Lines 239-245 (identically 298-304): the landing point `refracted_position`
computed by `get_refract`.  GLSL evaluates
`straight_projection * n1 / n2 * cosine / refract_cosine` componentwise,
which over the reals is the single scalar multiple used here.  Note the code
really writes `vec3(position.x, 0.0, position.y)` for `projection_position`:
the y-component (the height) reappears as the z-coordinate. -/
noncomputable def refracted_position (direction : Vec3) (n1 n2 : ℝ)
    (normal position : Vec3) : Vec3 :=
  let cosine := get_refract_cosine direction normal
  let refract_cosine := get_refract_refract_cosine direction normal n1 n2
  let h := position.y
  let straight_floor_x := -direction.x * h / direction.y + position.x
  let straight_floor_z := -direction.z * h / direction.y + position.z
  let projection_position : Vec3 := ⟨position.x, 0, position.y⟩
  let straight_projection :=
    vsub ⟨straight_floor_x, 0, straight_floor_z⟩ projection_position
  let refracted_projection :=
    smul (n1 / n2 * cosine / refract_cosine) straight_projection
  vadd projection_position refracted_projection

/-- Evaluation helper: normalizing the unit up-vector is the identity. -/
lemma normalize_up : normalize ⟨0, 1, 0⟩ = ⟨0, 1, 0⟩ := by
  have h : dot ⟨0, 1, 0⟩ ⟨0, 1, 0⟩ = 1 := by norm_num [dot]
  simp [normalize, length, h, Real.sqrt_one]

/-- Evaluation helper: normalizing the unit down-vector is the identity. -/
lemma normalize_down : normalize ⟨0, -1, 0⟩ = ⟨0, -1, 0⟩ := by
  have h : dot ⟨0, -1, 0⟩ ⟨0, -1, 0⟩ = 1 := by norm_num [dot]
  simp [normalize, length, h, Real.sqrt_one]

/-- Evaluation helper: the `get_refract` chain at vertical incidence on a flat
surface, for any index ratio. -/
lemma get_refract_chain_vertical (n2 : ℝ) :
    get_refract_cosine ⟨0, 1, 0⟩ ⟨0, 1, 0⟩ = 1 ∧
    get_refract_sine ⟨0, 1, 0⟩ ⟨0, 1, 0⟩ = 0 ∧
    get_refract_refract_sine ⟨0, 1, 0⟩ ⟨0, 1, 0⟩ 1 n2 = 0 ∧
    get_refract_refract_cosine ⟨0, 1, 0⟩ ⟨0, 1, 0⟩ 1 n2 = 1 := by
  have h1 : get_refract_cosine ⟨0, 1, 0⟩ ⟨0, 1, 0⟩ = 1 := by
    simp [get_refract_cosine, normalize_up, dot]
  have h2 : get_refract_sine ⟨0, 1, 0⟩ ⟨0, 1, 0⟩ = 0 := by
    simp [get_refract_sine, h1]
  have h3 : get_refract_refract_sine ⟨0, 1, 0⟩ ⟨0, 1, 0⟩ 1 n2 = 0 := by
    simp [get_refract_refract_sine, h2]
  have h4 : get_refract_refract_cosine ⟨0, 1, 0⟩ ⟨0, 1, 0⟩ 1 n2 = 1 := by
    simp [get_refract_refract_cosine, h3, Real.sqrt_one]
  exact ⟨h1, h2, h3, h4⟩

/-- Evaluation helper: the landing point for a vertical ray on a flat surface.
Because `projection_position` takes its z-coordinate from `position.y`, the
result blends the height into the z-coordinate. -/
lemma refracted_position_vertical (n2 : ℝ) (p : Vec3) :
    refracted_position ⟨0, 1, 0⟩ 1 n2 ⟨0, 1, 0⟩ p =
      ⟨p.x, 0, p.y + 1 / n2 * (p.z - p.y)⟩ := by
  obtain ⟨h1, -, -, h4⟩ := get_refract_chain_vertical n2
  simp [refracted_position, h1, h4, vsub, vadd, smul]

/-- C10: with unit normal and unit direction and the index pairs the program
actually uses (n1 = 1 with n2 = 1.333 or n2 = 1.33), the `get_refract` chain
is numerically total: the first square root's argument `1 - cosine^2` is
non-negative, `refract_sine` is at most `n1/n2`, which is below 1, so the
second square root's argument `1 - refract_sine^2` is positive and
`refract_cosine` is positive, hence neither square root sees a negative
argument and the division by `refract_cosine` never divides by zero. -/
theorem c10_refract_numerically_total (normal direction : Vec3) (n2 : ℝ)
    (hN : dot normal normal = 1) (hD : dot direction direction = 1)
    (hn2 : n2 = 1.333 ∨ n2 = 1.33) :
    0 ≤ 1 - get_refract_cosine direction normal *
      get_refract_cosine direction normal ∧
    get_refract_refract_sine direction normal 1 n2 ≤ 1 / n2 ∧
    1 / n2 < 1 ∧
    0 < 1 - get_refract_refract_sine direction normal 1 n2 *
      get_refract_refract_sine direction normal 1 n2 ∧
    0 < get_refract_refract_cosine direction normal 1 n2 := by
  have hn2pos : (1 : ℝ) < n2 := by rcases hn2 with h | h <;> rw [h] <;> norm_num
  have hnorm : normalize normal = normal := by
    simp [normalize, length, hN, Real.sqrt_one]
  have hcsq : get_refract_cosine direction normal *
      get_refract_cosine direction normal ≤ 1 := by
    rw [get_refract_cosine, hnorm]
    simp only [dot] at hN hD ⊢
    nlinarith [sq_nonneg (normal.x * direction.y - normal.y * direction.x),
      sq_nonneg (normal.x * direction.z - normal.z * direction.x),
      sq_nonneg (normal.y * direction.z - normal.z * direction.y)]
  have harg : 0 ≤ 1 - get_refract_cosine direction normal *
      get_refract_cosine direction normal := by linarith
  have hs_nonneg : 0 ≤ get_refract_sine direction normal :=
    Real.sqrt_nonneg _
  have hs_le : get_refract_sine direction normal ≤ 1 := by
    rw [get_refract_sine]
    exact Real.sqrt_le_one.mpr
      (by nlinarith [mul_self_nonneg (get_refract_cosine direction normal)])
  have hrs_eq : get_refract_refract_sine direction normal 1 n2 =
      get_refract_sine direction normal / n2 := by
    rw [get_refract_refract_sine, one_mul]
  have hrs_le : get_refract_refract_sine direction normal 1 n2 ≤ 1 / n2 := by
    rw [hrs_eq]
    exact (div_le_div_iff_of_pos_right (by linarith)).mpr hs_le
  have hrs_nonneg : 0 ≤ get_refract_refract_sine direction normal 1 n2 := by
    rw [hrs_eq]
    positivity
  have hratio : 1 / n2 < 1 := (div_lt_one (by linarith)).mpr hn2pos
  have hpos : 0 < 1 - get_refract_refract_sine direction normal 1 n2 *
      get_refract_refract_sine direction normal 1 n2 := by nlinarith
  refine ⟨harg, hrs_le, hratio, hpos, ?_⟩
  rw [get_refract_refract_cosine]
  exact Real.sqrt_pos.mpr hpos

/-- Witness for C10: normal = direction = (0,1,0), n2 = 1.333. -/
theorem c10_witness :
    0 ≤ 1 - get_refract_cosine ⟨0, 1, 0⟩ ⟨0, 1, 0⟩ *
      get_refract_cosine ⟨0, 1, 0⟩ ⟨0, 1, 0⟩ ∧
    get_refract_refract_sine ⟨0, 1, 0⟩ ⟨0, 1, 0⟩ 1 1.333 ≤ 1 / 1.333 ∧
    1 / (1.333 : ℝ) < 1 ∧
    0 < 1 - get_refract_refract_sine ⟨0, 1, 0⟩ ⟨0, 1, 0⟩ 1 1.333 *
      get_refract_refract_sine ⟨0, 1, 0⟩ ⟨0, 1, 0⟩ 1 1.333 ∧
    0 < get_refract_refract_cosine ⟨0, 1, 0⟩ ⟨0, 1, 0⟩ 1 1.333 :=
  c10_refract_numerically_total ⟨0, 1, 0⟩ ⟨0, 1, 0⟩ 1.333
    (by norm_num [dot]) (by norm_num [dot]) (Or.inl rfl)

/-- C1 (code evaluation at a failing input): at `P = (3, 5, 1)` with flat
normal `(0,1,0)`, vertical direction `(0,1,0)` and indices `n1 = 1`,
`n2 = 1.333`, the straight ray hits the floor at `(3, 0, 1)`, the horizontal
projection of `P` is `(3, 0, 1)` and the straight horizontal offset is zero,
so the claim's formula `P_horizontal_projection + scaled offset` yields
`(3, 0, 1)`.  The code instead yields `(3, 0, 2665/1333)`: its
`projection_position` is `vec3(position.x, 0.0, position.y)`, so the height
`Py = 5` replaces `Pz = 1` as the base z-coordinate. -/
theorem c1_landing_point_code_vs_claim :
    refracted_position ⟨0, 1, 0⟩ 1 1.333 ⟨0, 1, 0⟩ ⟨3, 5, 1⟩ =
      ⟨3, 0, 2665 / 1333⟩ ∧
    refracted_position ⟨0, 1, 0⟩ 1 1.333 ⟨0, 1, 0⟩ ⟨3, 5, 1⟩ ≠ ⟨3, 0, 1⟩ := by
  have h := refracted_position_vertical 1.333 ⟨3, 5, 1⟩
  norm_num at h
  rw [show (1.333 : ℝ) = 1333 / 1000 by norm_num]
  refine ⟨h, ?_⟩
  rw [h]
  intro hEq
  have hz := congrArg Vec3.z hEq
  norm_num at hz

/-- C4 (code evaluation at a failing input): at `P = (2, 6, 3)` with flat
normal `(0,1,0)` and normal incidence `D = (0,1,0)`, the straight-ray floor
intersection is `(2, 0, 3)` (the code's `straight_floor_x/z` give exactly
that), yet the landing point returned is `(2, 0, 4998/1333)`: even at normal
incidence the z-coordinate is bent, because `projection_position` reuses the
height `Py = 6` as its z-coordinate. -/
theorem c4_normal_incidence_not_straight :
    refracted_position ⟨0, 1, 0⟩ 1 1.333 ⟨0, 1, 0⟩ ⟨2, 6, 3⟩ =
      ⟨2, 0, 4998 / 1333⟩ ∧
    refracted_position ⟨0, 1, 0⟩ 1 1.333 ⟨0, 1, 0⟩ ⟨2, 6, 3⟩ ≠ ⟨2, 0, 3⟩ := by
  have h := refracted_position_vertical 1.333 ⟨2, 6, 3⟩
  norm_num at h
  rw [show (1.333 : ℝ) = 1333 / 1000 by norm_num]
  refine ⟨h, ?_⟩
  rw [h]
  intro hEq
  have hz := congrArg Vec3.z hEq
  norm_num at hz

/-!
Schlick reflectance (src/main.cpp, water_fragment_shader_source lines
259-261 and caustic_fragment_shader_source lines 335-337; both copies are
textually identical up to the names of the uniforms feeding `cosine`).
-/

/-- Lines 259-261: `coef = (n1 - n2) / (n1 + n2); coef = coef * coef;
coef = coef + (1 - coef) * pow(1 - cosine, 5);`. -/
noncomputable def schlick_coef (n1 n2 cosine : ℝ) : ℝ :=
  let coef := (n1 - n2) / (n1 + n2)
  let coef := coef * coef
  coef + (1 - coef) * (1 - cosine) ^ 5

/-- C7: for the index pair the shaders use (n1 = 1, n2 = 1.333), the Schlick
reflectance is monotonically non-increasing on [0, 1] as `cos_theta`
increases toward 1, equals 1 exactly at grazing incidence `cos_theta = 0`,
and together with the transmit weight `1 - R` the two sum to 1 exactly for
any input. -/
theorem c7_schlick_monotone_grazing_sum :
    (∀ a b : ℝ, 0 ≤ a → a ≤ b → b ≤ 1 →
      schlick_coef 1 1.333 b ≤ schlick_coef 1 1.333 a) ∧
    schlick_coef 1 1.333 0 = 1 ∧
    (∀ c : ℝ, schlick_coef 1 1.333 c + (1 - schlick_coef 1 1.333 c) = 1) := by
  refine ⟨?_, ?_, fun c => by ring⟩
  · intro a b ha hab hb1
    simp only [schlick_coef]
    have h1 : (0 : ℝ) ≤ 1 - ((1 : ℝ) - 1.333) / (1 + 1.333) *
        (((1 : ℝ) - 1.333) / (1 + 1.333)) := by norm_num
    have h2 : (1 - b) ^ 5 ≤ (1 - a) ^ 5 :=
      pow_le_pow_left₀ (by linarith) (by linarith) 5
    nlinarith [h1, h2]
  · simp only [schlick_coef]
    norm_num

/-!
Water fragment shader (src/main.cpp, water_fragment_shader_source lines
191-268).  The three texture samplers (`tex`, the environment cube map
keyed by direction; `floor_tex` and `caustics_tex`, 2D maps keyed by
texture coordinates) are abstract functions.
-/

/-- Lines 215-217: water fragment `diffuse`. -/
def water_diffuse (direction : Vec3) : ℝ :=
  max 0 (dot ⟨0, 1, 0⟩ direction)

/-- Lines 219-222: water fragment `reflect`: `2.0 * normal * cosine -
direction`, with the raw (not re-normalized) interpolated normal. -/
def water_reflect (normal direction : Vec3) : Vec3 :=
  vsub (smul (2 * dot normal direction) normal) direction

/-- Lines 224-232: water fragment `get_floor`.  GLSL
`albedo * sun_impact * sun_light` multiplies componentwise and by the
scalar; over the reals that is `smul sun_impact (vmul albedo sun_light)`. -/
noncomputable def get_floor (caustics_tex : ℝ × ℝ → Vec4)
    (floor_tex : ℝ × ℝ → Vec3) (ambient_light sun_light sun_direction : Vec3)
    (pos : Vec3) : Vec3 :=
  let caustics_data := caustics_tex (pos.x / 40, pos.z / 8)
  let albedo := vadd (floor_tex (pos.x / 4, pos.z / 4))
    (smul caustics_data.w ⟨caustics_data.x, caustics_data.y, caustics_data.z⟩)
  let color := vmul albedo ambient_light
  let sun_impact := water_diffuse sun_direction
  vadd color (smul sun_impact (vmul albedo sun_light))

/-- The branch taken by the water `get_refract` (lines 246-250), with the
two texture fetches abstracted into tags: `floor_sample p` stands for
`get_floor(p)` and `env_sample d` for `texture(tex, d).rgb`. -/
inductive RefractChoice where
  | floor_sample (landing : Vec3)
  | env_sample (dir : Vec3)

/-- Lines 234-251 reduced to the sampling decision: which source the water
`get_refract` samples, and where. -/
noncomputable def water_get_refract_choice (floor_width floor_height : ℝ)
    (direction : Vec3) (n1 n2 : ℝ) (normal position : Vec3) : RefractChoice :=
  let rp := refracted_position direction n1 n2 normal position
  if 0 < rp.x ∧ 0 < rp.z ∧ rp.x < floor_width ∧ rp.z < floor_height then
    RefractChoice.floor_sample rp
  else
    RefractChoice.env_sample (normalize (vsub rp position))

/-- Lines 234-251: the water `get_refract`, returning the sampled color. -/
noncomputable def water_get_refract (tex : Vec3 → Vec3)
    (caustics_tex : ℝ × ℝ → Vec4) (floor_tex : ℝ × ℝ → Vec3)
    (ambient_light sun_light sun_direction : Vec3)
    (floor_width floor_height : ℝ) (direction : Vec3) (n1 n2 : ℝ)
    (normal position : Vec3) : Vec3 :=
  let rp := refracted_position direction n1 n2 normal position
  if 0 < rp.x ∧ 0 < rp.z ∧ rp.x < floor_width ∧ rp.z < floor_height then
    get_floor caustics_tex floor_tex ambient_light sun_light sun_direction rp
  else
    tex (normalize (vsub rp position))

/-- Line 256 of the water fragment main: `float n1 = 1.0;`. -/
noncomputable def water_main_n1 : ℝ := 1.0

/-- Line 257 of the water fragment main: `float n2 = 1.333;`. -/
noncomputable def water_main_n2 : ℝ := 1.333

/-- Lines 253-267: the water fragment `main` (the commented-out debug output
on line 266 is dead code).  Note line 258: the Schlick cosine is taken
against `sun_direction`. -/
noncomputable def water_main (tex : Vec3 → Vec3)
    (caustics_tex : ℝ × ℝ → Vec4) (floor_tex : ℝ × ℝ → Vec3)
    (camera_position ambient_light sun_light sun_direction : Vec3)
    (floor_width floor_height : ℝ) (position normal : Vec3) : Vec3 :=
  let view_direction := normalize (vsub camera_position position)
  let n1 := water_main_n1
  let n2 := water_main_n2
  let cosine := dot (normalize normal) sun_direction
  let coef := (n1 - n2) / (n1 + n2)
  let coef := coef * coef
  let coef := coef + (1 - coef) * (1 - cosine) ^ 5
  let reflect_color := smul coef (tex (water_reflect normal view_direction))
  let refract_color := smul (1 - coef)
    (water_get_refract tex caustics_tex floor_tex ambient_light sun_light
      sun_direction floor_width floor_height view_direction n1 n2 normal
      position)
  vadd reflect_color refract_color

/-- C8: for every input, the water `get_refract` samples the floor's lit
appearance at the landing point exactly when the landing point lies inside
the floor's rectangular extent (0 < x < floor_width and 0 < z <
floor_height); otherwise it samples the environment backdrop along
`normalize(landing_point - position)`.  Both branches are ordinary values
of a total function: no branch fails.  The last conjunct ties the tagged
decision to the color actually returned, for arbitrary samplers. -/
theorem c8_refract_floor_or_backdrop :
    ∀ (floor_width floor_height : ℝ) (direction : Vec3) (n1 n2 : ℝ)
      (normal position : Vec3),
    (water_get_refract_choice floor_width floor_height direction n1 n2 normal
        position =
      RefractChoice.floor_sample
        (refracted_position direction n1 n2 normal position) ↔
      (0 < (refracted_position direction n1 n2 normal position).x ∧
        (refracted_position direction n1 n2 normal position).x < floor_width ∧
        0 < (refracted_position direction n1 n2 normal position).z ∧
        (refracted_position direction n1 n2 normal position).z < floor_height)) ∧
    (water_get_refract_choice floor_width floor_height direction n1 n2 normal
        position =
      RefractChoice.env_sample (normalize (vsub
        (refracted_position direction n1 n2 normal position) position)) ↔
      ¬(0 < (refracted_position direction n1 n2 normal position).x ∧
        (refracted_position direction n1 n2 normal position).x < floor_width ∧
        0 < (refracted_position direction n1 n2 normal position).z ∧
        (refracted_position direction n1 n2 normal position).z < floor_height)) ∧
    (∀ (tex : Vec3 → Vec3) (caustics_tex : ℝ × ℝ → Vec4)
        (floor_tex : ℝ × ℝ → Vec3)
        (ambient_light sun_light sun_direction : Vec3),
      water_get_refract tex caustics_tex floor_tex ambient_light sun_light
          sun_direction floor_width floor_height direction n1 n2 normal
          position =
        match water_get_refract_choice floor_width floor_height direction n1
            n2 normal position with
        | RefractChoice.floor_sample p =>
            get_floor caustics_tex floor_tex ambient_light sun_light
              sun_direction p
        | RefractChoice.env_sample d => tex d) := by
  intro floor_width floor_height direction n1 n2 normal position
  by_cases h : 0 < (refracted_position direction n1 n2 normal position).x ∧
      0 < (refracted_position direction n1 n2 normal position).z ∧
      (refracted_position direction n1 n2 normal position).x < floor_width ∧
      (refracted_position direction n1 n2 normal position).z < floor_height
  · refine ⟨?_, ?_, ?_⟩
    · simp only [water_get_refract_choice, if_pos h]
      constructor
      · intro _
        exact ⟨h.1, h.2.2.1, h.2.1, h.2.2.2⟩
      · intro _
        trivial
    · simp only [water_get_refract_choice, if_pos h]
      constructor
      · intro hfalse
        exact absurd hfalse (by simp)
      · intro hn
        exact absurd ⟨h.1, h.2.2.1, h.2.1, h.2.2.2⟩ hn
    · intro tex caustics_tex floor_tex ambient_light sun_light sun_direction
      simp only [water_get_refract, water_get_refract_choice, if_pos h]
  · refine ⟨?_, ?_, ?_⟩
    · simp only [water_get_refract_choice, if_neg h]
      constructor
      · intro hfalse
        exact absurd hfalse (by simp)
      · intro hb
        exact absurd ⟨hb.1, hb.2.2.1, hb.2.1, hb.2.2.2⟩ h
    · simp only [water_get_refract_choice, if_neg h]
      constructor
      · intro _
        intro hb
        exact absurd ⟨hb.1, hb.2.2.1, hb.2.1, hb.2.2.2⟩ h
      · intro _
        trivial
    · intro tex caustics_tex floor_tex ambient_light sun_light sun_direction
      simp only [water_get_refract, water_get_refract_choice, if_neg h]

/-- Evaluation helper: the square root of 25. -/
lemma sqrt_twentyfive : Real.sqrt 25 = 5 := by
  rw [show (25 : ℝ) = 5 ^ 2 by norm_num]
  exact Real.sqrt_sq (by norm_num)

/-- Evaluation helper: normalizing `(0, 5, 0)`. -/
lemma normalize_five_up : normalize ⟨0, 5, 0⟩ = ⟨0, 1, 0⟩ := by
  have hd : dot ⟨0, 5, 0⟩ ⟨0, 5, 0⟩ = 25 := by norm_num [dot]
  simp [normalize, length, hd, sqrt_twentyfive]

/-- C2 (amended): for every input the water-pass output is
`reflect_weight * reflected + transmit_weight * transmitted` with
`transmit_weight = 1 - reflect_weight`, but the Schlick weight is computed
with `cos_theta = dot(normalize(normal), sun_direction)` — the sun
direction, not the viewer direction; the reflected color is sampled along
`reflect(view_direction)` and the transmitted color comes from
`get_refract(view_direction)`. -/
theorem c2_amended_schlick_uses_sun_direction :
    ∀ (tex : Vec3 → Vec3) (caustics_tex : ℝ × ℝ → Vec4)
      (floor_tex : ℝ × ℝ → Vec3)
      (camera_position ambient_light sun_light sun_direction : Vec3)
      (floor_width floor_height : ℝ) (position normal : Vec3),
    water_main tex caustics_tex floor_tex camera_position ambient_light
        sun_light sun_direction floor_width floor_height position normal =
      vadd
        (smul (schlick_coef water_main_n1 water_main_n2
            (dot (normalize normal) sun_direction))
          (tex (water_reflect normal
            (normalize (vsub camera_position position)))))
        (smul (1 - schlick_coef water_main_n1 water_main_n2
            (dot (normalize normal) sun_direction))
          (water_get_refract tex caustics_tex floor_tex ambient_light
            sun_light sun_direction floor_width floor_height
            (normalize (vsub camera_position position)) water_main_n1
            water_main_n2 normal position)) := by
  intro tex caustics_tex floor_tex camera_position ambient_light sun_light
    sun_direction floor_width floor_height position normal
  simp only [water_main, schlick_coef]

/-- Evaluation helper: the water refraction term of the C2 counterexample
scene: vertical viewer above `P = (1, 4, 2)`, black floor and caustics, so
the transmitted color is black. -/
lemma c2_scene_refract_black :
    water_get_refract (fun _ => ⟨1, 1, 1⟩) (fun _ => ⟨0, 0, 0, 0⟩)
        (fun _ => ⟨0, 0, 0⟩) ⟨1, 1, 1⟩ ⟨1, 1, 1⟩ ⟨3 / 5, 4 / 5, 0⟩ 40 8
        ⟨0, 1, 0⟩ water_main_n1 water_main_n2 ⟨0, 1, 0⟩ ⟨1, 4, 2⟩ =
      ⟨0, 0, 0⟩ := by
  have hn1 : water_main_n1 = 1 := by norm_num [water_main_n1]
  have hn2 : water_main_n2 = 1333 / 1000 := by norm_num [water_main_n2]
  have hrp : refracted_position ⟨0, 1, 0⟩ water_main_n1 water_main_n2
      ⟨0, 1, 0⟩ ⟨1, 4, 2⟩ = ⟨1, 0, 3332 / 1333⟩ := by
    rw [hn1, hn2]
    have h := refracted_position_vertical (1333 / 1000) ⟨1, 4, 2⟩
    norm_num at h
    exact h
  simp only [water_get_refract]
  rw [hrp, if_pos (by norm_num)]
  norm_num [get_floor, water_diffuse, vadd, smul, vmul, dot]

/-- C2 (counterexample): a concrete scene where the output disagrees with
the claim's formula.  The camera sits straight above `P`, so the viewer
cosine is 1 and the claim's Schlick weight is the base reflectance `R0`;
the code instead weights by Schlick at the sun cosine 4/5, which is
strictly larger, and with a white environment and a black floor the two
outputs differ. -/
theorem c2_counterexample_viewer_weight :
    water_main (fun _ => ⟨1, 1, 1⟩) (fun _ => ⟨0, 0, 0, 0⟩)
        (fun _ => ⟨0, 0, 0⟩) ⟨1, 9, 2⟩ ⟨1, 1, 1⟩ ⟨1, 1, 1⟩ ⟨3 / 5, 4 / 5, 0⟩
        40 8 ⟨1, 4, 2⟩ ⟨0, 1, 0⟩ ≠
      vadd
        (smul (schlick_coef water_main_n1 water_main_n2
            (dot (normalize ⟨0, 1, 0⟩)
              (normalize (vsub ⟨1, 9, 2⟩ ⟨1, 4, 2⟩))))
          ((fun _ : Vec3 => (⟨1, 1, 1⟩ : Vec3))
            (water_reflect ⟨0, 1, 0⟩
              (normalize (vsub ⟨1, 9, 2⟩ ⟨1, 4, 2⟩)))))
        (smul (1 - schlick_coef water_main_n1 water_main_n2
            (dot (normalize ⟨0, 1, 0⟩)
              (normalize (vsub ⟨1, 9, 2⟩ ⟨1, 4, 2⟩))))
          (water_get_refract (fun _ => ⟨1, 1, 1⟩) (fun _ => ⟨0, 0, 0, 0⟩)
            (fun _ => ⟨0, 0, 0⟩) ⟨1, 1, 1⟩ ⟨1, 1, 1⟩ ⟨3 / 5, 4 / 5, 0⟩ 40 8
            (normalize (vsub ⟨1, 9, 2⟩ ⟨1, 4, 2⟩)) water_main_n1
            water_main_n2 ⟨0, 1, 0⟩ ⟨1, 4, 2⟩)) := by
  have hv : vsub (⟨1, 9, 2⟩ : Vec3) ⟨1, 4, 2⟩ = ⟨0, 5, 0⟩ := by
    norm_num [vsub]
  have hview : normalize (vsub (⟨1, 9, 2⟩ : Vec3) ⟨1, 4, 2⟩) = ⟨0, 1, 0⟩ := by
    rw [hv, normalize_five_up]
  have hcos : dot (normalize ⟨0, 1, 0⟩) ⟨3 / 5, 4 / 5, 0⟩ = 4 / 5 := by
    rw [normalize_up]
    norm_num [dot]
  have hcosv : dot (normalize ⟨0, 1, 0⟩) (⟨0, 1, 0⟩ : Vec3) = 1 := by
    rw [normalize_up]
    norm_num [dot]
  simp only [water_main, schlick_coef]
  rw [hview, hcos, hcosv, c2_scene_refract_black]
  intro hEq
  have hx := congrArg Vec3.x hEq
  simp only [vadd, smul, water_main_n1, water_main_n2] at hx
  norm_num at hx

/-!
Caustic vertex shader (src/main.cpp, caustic_vertex_shader_source lines
270-318) and caustic fragment shader (lines 320-341).
-/

/-- Line 313: the literal `1.0` the caustic vertex main passes to
`get_refract` as `n1`. -/
noncomputable def caustic_refract_n1 : ℝ := 1.0

/-- Line 313: the literal `1.33` the caustic vertex main passes to
`get_refract` as `n2`. -/
noncomputable def caustic_refract_n2 : ℝ := 1.33

/-- Lines 313-315: the caustic vertex main's texture coordinate:
`get_refract(sun_direction, 1.0, 1.33, normal, position).xz`, the x divided
by 40 and the y by 8. -/
noncomputable def caustic_texcoord (sun_direction normal position : Vec3) :
    ℝ × ℝ :=
  let t := refracted_position sun_direction caustic_refract_n1
    caustic_refract_n2 normal position
  (t.x / 40, t.z / 8)

/-- Line 332 of the caustic fragment main: `float n1 = 1.0;`. -/
noncomputable def caustic_frag_n1 : ℝ := 1.0

/-- Line 333 of the caustic fragment main: `float n2 = 1.333;`. -/
noncomputable def caustic_frag_n2 : ℝ := 1.333

/-- Lines 330-340: the caustic fragment main.  Its `normal` input is a
varying no vertex-shader output feeds, so it is a free argument here.  The
local `vec3 color` of line 338 is computed and never used; the fragment
writes `vec4(sun_light, 1.0 - coef)`. -/
noncomputable def caustic_frag_main (normal sun_direction sun_light : Vec3) :
    Vec4 :=
  let n1 := caustic_frag_n1
  let n2 := caustic_frag_n2
  let cosine := dot (normalize normal) sun_direction
  let coef := (n1 - n2) / (n1 + n2)
  let coef := coef * coef
  let coef := coef + (1 - coef) * (1 - cosine) ^ 5
  ⟨sun_light.x, sun_light.y, sun_light.z, 1 - coef⟩

/-- The `out` varyings the caustic vertex shader declares (lines 270-318):
none — its main writes only `gl_Position`. -/
def caustic_vertex_out_varyings : List String := []

/-- The `in` varyings the caustic fragment shader declares (line 326):
`in vec3 normal`. -/
def caustic_fragment_in_varyings : List String := ["normal"]

/-- C3 (code evaluation): the caustic fragment shader reads the varying
`normal`, but the caustic vertex shader writes no varying at all, so the
fragment's `normal` is not the vertex's wave-field surface normal — it is
undefined at link time.  Moreover the written value genuinely depends on
that unlinked input: two normals give different written transmit weights,
so the buffer value is not determined by the vertex's wave-field normal as
the claim requires. -/
theorem c3_caustic_normal_varying_unlinked :
    ("normal" ∈ caustic_fragment_in_varyings ∧
      "normal" ∉ caustic_vertex_out_varyings) ∧
    caustic_frag_main ⟨0, 1, 0⟩ ⟨0, 1, 0⟩ ⟨1, 1, 1⟩ ≠
      caustic_frag_main ⟨0, -1, 0⟩ ⟨0, 1, 0⟩ ⟨1, 1, 1⟩ := by
  refine ⟨⟨by simp [caustic_fragment_in_varyings],
    by simp [caustic_vertex_out_varyings]⟩, ?_⟩
  intro hEq
  have hw := congrArg Vec4.w hEq
  simp only [caustic_frag_main, caustic_frag_n1, caustic_frag_n2,
    normalize_up, normalize_down] at hw
  norm_num [dot] at hw

/-- C6 (counterexample): the caustic vertex shader's refraction call uses
n2 = 1.33, not 1.333: at sun direction `(0,1,0)`, flat normal and
`P = (4, 6, 2)` the texture coordinate it computes differs from the one the
claimed pair (1.0, 1.333) would give. -/
theorem c6_counterexample_caustic_n2 :
    caustic_texcoord ⟨0, 1, 0⟩ ⟨0, 1, 0⟩ ⟨4, 6, 2⟩ ≠
      ((refracted_position ⟨0, 1, 0⟩ 1 1.333 ⟨0, 1, 0⟩ ⟨4, 6, 2⟩).x / 40,
       (refracted_position ⟨0, 1, 0⟩ 1 1.333 ⟨0, 1, 0⟩ ⟨4, 6, 2⟩).z / 8) := by
  have hn1 : caustic_refract_n1 = 1 := by norm_num [caustic_refract_n1]
  have hn2 : caustic_refract_n2 = 133 / 100 := by norm_num [caustic_refract_n2]
  have h133 : refracted_position ⟨0, 1, 0⟩ caustic_refract_n1
      caustic_refract_n2 ⟨0, 1, 0⟩ ⟨4, 6, 2⟩ = ⟨4, 0, 398 / 133⟩ := by
    rw [hn1, hn2]
    have h := refracted_position_vertical (133 / 100) ⟨4, 6, 2⟩
    norm_num at h
    exact h
  rw [show (1.333 : ℝ) = 1333 / 1000 by norm_num]
  have h1333 : refracted_position ⟨0, 1, 0⟩ 1 (1333 / 1000)
      ⟨0, 1, 0⟩ ⟨4, 6, 2⟩ = ⟨4, 0, 3998 / 1333⟩ := by
    have h := refracted_position_vertical (1333 / 1000) ⟨4, 6, 2⟩
    norm_num at h
    exact h
  simp only [caustic_texcoord]
  rw [h133, h1333]
  intro hEq
  have hz := congrArg Prod.snd hEq
  norm_num at hz

/-- C6 (amended): the two Schlick computations (water fragment main lines
256-257, caustic fragment main lines 332-333) and the water-pass refraction
both use n1 = 1.0, n2 = 1.333, but the caustic-pass refraction call (line
313) passes n2 = 1.33, a different constant. -/
theorem c6_amended_index_constants :
    water_main_n1 = 1 ∧ water_main_n2 = 1.333 ∧ caustic_frag_n1 = 1 ∧
    caustic_frag_n2 = 1.333 ∧ caustic_refract_n1 = 1 ∧
    caustic_refract_n2 = 1.33 ∧ caustic_refract_n2 ≠ water_main_n2 ∧
    (∀ s n p : Vec3, caustic_texcoord s n p =
      ((refracted_position s caustic_refract_n1 caustic_refract_n2 n p).x / 40,
       (refracted_position s caustic_refract_n1 caustic_refract_n2 n p).z / 8)) := by
  refine ⟨by norm_num [water_main_n1], rfl, by norm_num [caustic_frag_n1],
    rfl, by norm_num [caustic_refract_n1], rfl, ?_, fun s n p => rfl⟩
  norm_num [caustic_refract_n2, water_main_n2]

/-!
Render loop (src/main.cpp, `main`, lines 701-806).  The body of the `while`
loop after input handling is a straight-line sequence of GL calls; it is
transcribed below as a command list, one entry per state-relevant call, in
source order.  Plain data-uniform uploads (matrices, colors, scalars) and
`glViewport` dimensions carry no state the claims concern and are omitted
or kept argument-less.  Texture object handles are abstract numbers.
-/

/-- The four shader programs built in `main`. -/
inductive Prog where
  | caustics
  | env
  | floor
  | water
deriving DecidableEq

/-- Handle of the floor color texture `tex` (line 534). -/
def floor_img_tex : Nat := 1

/-- Handle of the environment cube map `env_tex` (line 566). -/
def env_cube_tex : Nat := 2

/-- Handle of the offscreen caustic buffer texture `caustics_tex`
(line 585). -/
def caustics_tex_id : Nat := 3

/-- Handle of `caustics_fbo` (line 595); the default framebuffer is 0. -/
def caustics_fbo : Nat := 1

/-- Line 597: `caustics_tex` is the color attachment of `caustics_fbo`;
the default framebuffer presents to the screen. -/
def fbo_color_attachment (fbo : Nat) : Option Nat :=
  if fbo = caustics_fbo then some caustics_tex_id else none

/-- The state-relevant GL calls of the loop body.  Clear-color channels are
recorded in tenths (`glClearColor(0.8, 0.8, 1.0, 0.0)` becomes
`set_clear_color 8 8 10 0`) so the trace stays kernel-decidable. -/
inductive GLCmd where
  | use_program (p : Prog)
  | bind_draw_framebuffer (fbo : Nat)
  | set_clear_color (r g b a : Nat)
  | clear_cmd
  | set_viewport
  | enable_blend
  | blend_func_src_alpha_one
  | enable_cull_face
  | disable_depth_test
  | disable_blend
  | enable_depth_test
  | set_sampler_unit (unit : Nat)
  | active_texture (unit : Nat)
  | bind_texture (tex : Nat)
  | bind_vertex_array
  | bind_buffer
  | draw_arrays
  | swap_window
deriving DecidableEq

/-- Lines 701-806, in source order (the line of each call is noted in the
transcription): the caustics pass (703-721), the environment/backdrop pass
(724-748), the floor pass (751-773), the water pass (776-804) and the
present (806). -/
def frame_cmds : List GLCmd := [
  GLCmd.use_program Prog.caustics,
  GLCmd.bind_draw_framebuffer 1,
  GLCmd.set_clear_color 0 0 0 0,
  GLCmd.clear_cmd,
  GLCmd.set_viewport,
  GLCmd.enable_blend,
  GLCmd.blend_func_src_alpha_one,
  GLCmd.bind_vertex_array,
  GLCmd.bind_buffer,
  GLCmd.draw_arrays,
  GLCmd.use_program Prog.env,
  GLCmd.bind_draw_framebuffer 0,
  GLCmd.set_clear_color 8 8 10 0,
  GLCmd.set_viewport,
  GLCmd.clear_cmd,
  GLCmd.enable_cull_face,
  GLCmd.disable_depth_test,
  GLCmd.disable_blend,
  GLCmd.set_sampler_unit 1,
  GLCmd.active_texture 1,
  GLCmd.bind_texture env_cube_tex,
  GLCmd.bind_vertex_array,
  GLCmd.bind_buffer,
  GLCmd.draw_arrays,
  GLCmd.use_program Prog.floor,
  GLCmd.enable_depth_test,
  GLCmd.set_sampler_unit 0,
  GLCmd.set_sampler_unit 2,
  GLCmd.bind_vertex_array,
  GLCmd.bind_buffer,
  GLCmd.active_texture 0,
  GLCmd.bind_texture floor_img_tex,
  GLCmd.active_texture 2,
  GLCmd.bind_texture caustics_tex_id,
  GLCmd.draw_arrays,
  GLCmd.use_program Prog.water,
  GLCmd.enable_depth_test,
  GLCmd.set_sampler_unit 1,
  GLCmd.set_sampler_unit 0,
  GLCmd.set_sampler_unit 2,
  GLCmd.bind_vertex_array,
  GLCmd.bind_buffer,
  GLCmd.active_texture 0,
  GLCmd.bind_texture floor_img_tex,
  GLCmd.active_texture 1,
  GLCmd.bind_texture env_cube_tex,
  GLCmd.active_texture 2,
  GLCmd.bind_texture caustics_tex_id,
  GLCmd.draw_arrays,
  GLCmd.swap_window]

/-- The GL state the command list manipulates: current program, bound draw
framebuffer, active texture unit, unit-to-texture bindings (newest first),
the clear color, and the sampler-unit uniforms set per program. -/
structure GLState where
  program : Option Prog
  bound_fbo : Nat
  active_unit : Nat
  units : List (Nat × Nat)
  clear_r : Nat
  clear_g : Nat
  clear_b : Nat
  clear_a : Nat
  samplers_caustics : List Nat
  samplers_env : List Nat
  samplers_floor : List Nat
  samplers_water : List Nat

/-- Record a `glUniform1i` sampler assignment on the current program. -/
def add_sampler (s : GLState) (u : Nat) : GLState :=
  match s.program with
  | some Prog.caustics => {s with samplers_caustics := s.samplers_caustics ++ [u]}
  | some Prog.env => {s with samplers_env := s.samplers_env ++ [u]}
  | some Prog.floor => {s with samplers_floor := s.samplers_floor ++ [u]}
  | some Prog.water => {s with samplers_water := s.samplers_water ++ [u]}
  | none => s

/-- The sampler units a program reads from. -/
def samplers_of (s : GLState) : Prog → List Nat
  | Prog.caustics => s.samplers_caustics
  | Prog.env => s.samplers_env
  | Prog.floor => s.samplers_floor
  | Prog.water => s.samplers_water

/-- The texture currently bound to a unit. -/
def lookup_unit (units : List (Nat × Nat)) (u : Nat) : Option Nat :=
  (units.find? (fun q => q.1 == u)).map Prod.snd

/-- The observable events of a frame: buffer clears (with target and clear
color), draws (with program, target framebuffer and the textures the drawn
program samples), and the present/swap. -/
inductive FrameEvent where
  | clear_event (fbo : Nat) (r g b a : Nat)
  | draw_event (p : Prog) (fbo : Nat) (reads : List Nat)
  | swap_event
deriving DecidableEq

/-- One GL call: the next state and the event it emits, if any. -/
def gl_step (s : GLState) : GLCmd → GLState × Option FrameEvent
  | GLCmd.use_program p => ({s with program := some p}, none)
  | GLCmd.bind_draw_framebuffer n => ({s with bound_fbo := n}, none)
  | GLCmd.set_clear_color r g b a =>
      ({s with clear_r := r, clear_g := g, clear_b := b, clear_a := a}, none)
  | GLCmd.clear_cmd =>
      (s, some (FrameEvent.clear_event s.bound_fbo s.clear_r s.clear_g
        s.clear_b s.clear_a))
  | GLCmd.set_sampler_unit u => (add_sampler s u, none)
  | GLCmd.active_texture u => ({s with active_unit := u}, none)
  | GLCmd.bind_texture t => ({s with units := (s.active_unit, t) :: s.units}, none)
  | GLCmd.draw_arrays =>
      (s, match s.program with
        | some p => some (FrameEvent.draw_event p s.bound_fbo
            ((samplers_of s p).filterMap (lookup_unit s.units)))
        | none => none)
  | GLCmd.swap_window => (s, some FrameEvent.swap_event)
  | _ => (s, none)

/-- Fold a command list into its event trace. -/
def run_frame : List GLCmd → GLState → List FrameEvent
  | [], _ => []
  | c :: rest, s =>
      match gl_step s c with
      | (s2, some ev) => ev :: run_frame rest s2
      | (s2, none) => run_frame rest s2

/-- The GL state on entry to the loop body, from the setup code before the
loop: `glUseProgram(floor_program)` (line 482), texture unit 0 bound to the
floor image (536-537), unit 1 to the environment cube (568-569), unit 2 to
the caustic buffer texture (587-588, the last `glActiveTexture`), the
caustics framebuffer bound (596), default clear color, and no sampler
uniforms set yet. -/
def initial_state : GLState :=
  { program := some Prog.floor
    bound_fbo := 1
    active_unit := 2
    units := [(0, floor_img_tex), (1, env_cube_tex), (2, caustics_tex_id)]
    clear_r := 0
    clear_g := 0
    clear_b := 0
    clear_a := 0
    samplers_caustics := []
    samplers_env := []
    samplers_floor := []
    samplers_water := [] }

/-- The event trace of one iteration of the render loop body. -/
def frame_events : List FrameEvent := run_frame frame_cmds initial_state

/-- The pass a draw event ran, if the event is a draw. -/
def event_pass : FrameEvent → Option Prog
  | FrameEvent.draw_event p _ _ => some p
  | _ => none

/-- A draw event targets the caustic buffer texture only from the caustics
program. -/
def writes_caustics_only_in_caustics_pass (e : FrameEvent) : Bool :=
  match e with
  | FrameEvent.draw_event p fbo _ =>
      !(decide (fbo_color_attachment fbo = some caustics_tex_id)) ||
        decide (p = Prog.caustics)
  | _ => true

/-- A draw event samples the caustic buffer texture only from the floor or
water program. -/
def reads_caustics_only_in_floor_or_water (e : FrameEvent) : Bool :=
  match e with
  | FrameEvent.draw_event p _ reads =>
      !(decide (caustics_tex_id ∈ reads)) ||
        decide (p = Prog.floor ∨ p = Prog.water)
  | _ => true

/-- C9: one loop iteration emits, in order: a clear of the caustics
framebuffer to zero, the caustics draw targeting it, the clear of the
visible framebuffer, then the backdrop, floor and water draws targeting the
visible framebuffer, and finally the present/swap — so the passes run
caustics, backdrop, floor, water, present, unconditionally and
sequentially.  Every draw that writes the caustic buffer texture is the
caustics draw, and every draw that samples the caustic buffer texture is
the floor draw or the water draw, both of which come after the caustics
draw in the trace. -/
theorem c9_pass_order_and_caustic_buffer :
    frame_events = [
      FrameEvent.clear_event caustics_fbo 0 0 0 0,
      FrameEvent.draw_event Prog.caustics caustics_fbo [],
      FrameEvent.clear_event 0 8 8 10 0,
      FrameEvent.draw_event Prog.env 0 [env_cube_tex],
      FrameEvent.draw_event Prog.floor 0 [floor_img_tex, caustics_tex_id],
      FrameEvent.draw_event Prog.water 0
        [env_cube_tex, floor_img_tex, caustics_tex_id],
      FrameEvent.swap_event] ∧
    frame_events.filterMap event_pass =
      [Prog.caustics, Prog.env, Prog.floor, Prog.water] ∧
    frame_events.getLast? = some FrameEvent.swap_event ∧
    frame_events.all writes_caustics_only_in_caustics_pass = true ∧
    frame_events.all reads_caustics_only_in_floor_or_water = true := by
  refine ⟨by decide, by decide, by decide, by decide, by decide⟩

end WaterPool
